import Mathlib

/-!
Shallow embedding of the shape-morphing geometry engine of the nu3Geometry
repository: the shape profile library (`shapeSDFs`, `getShapeParameters` in
shapeMorphEngine.js) and the `SphericalCustomGeometry` class
(sphericalCustomGeometry.js): its constructor, `generatePropertyCell`,
`combinedSDF`, `generateScalarFieldGeometry`, `morphToShape` and `update`.

JavaScript numbers are modelled as follows: values that only flow through the
transition state machine (time, progress, durations, morph speed) are
rationals, which agrees with IEEE-754 double arithmetic on every value the
theorems below evaluate (all divisions have nonzero denominators there);
values that feed the trigonometric field evaluator are real numbers.
-/

namespace Nu3

noncomputable section

/-- One cell of the property matrix, as produced by `generatePropertyCell`.
All fields are numeric in the source. -/
structure PropertyCell where
  anisotropy : ℝ
  sphericity : ℝ
  rugosity : ℝ
  gaussianCurvature : ℝ
  meanCurvature : ℝ
  torsion : ℝ
  convexity : ℝ
  smoothness : ℝ
  edgeSharpness : ℝ
  fractalDimension : ℝ
  surfaceGradient : ℝ
  normalVariation : ℝ
  axisSymmetry : ℝ
  rotationSymmetry : ℝ
  translationSymmetry : ℝ
  mirrorSymmetry : ℝ
  radialSymmetry : ℝ
  eulerCharacteristic : ℝ
  localConnectivity : ℝ
  boundaryCurvature : ℝ
  tangentPlaneVariance : ℝ
  densityGradient : ℝ
  rigidity : ℝ

/-- Embedding of `generatePropertyCell` from sphericalCustomGeometry.js.  The two
`Math.random()` draws (anisotropy and rugosity) are passed in as parameters;
every other field is the constant the source assigns. -/
def generatePropertyCell (anisotropy rugosity : ℝ) : PropertyCell where
  anisotropy := anisotropy
  sphericity := 1.0
  rugosity := rugosity
  gaussianCurvature := 0
  meanCurvature := 0
  torsion := 0
  convexity := 1
  smoothness := 1
  edgeSharpness := 0.5
  fractalDimension := 1
  surfaceGradient := 0
  normalVariation := 0
  axisSymmetry := 1
  rotationSymmetry := 1
  translationSymmetry := 1
  mirrorSymmetry := 1
  radialSymmetry := 1
  eulerCharacteristic := 0
  localConnectivity := 1
  boundaryCurvature := 0
  tangentPlaneVariance := 0
  densityGradient := 1
  rigidity := 1

/-- The `Sphere` entry of `ShapeMorphEngine.shapeSDFs`. -/
def sphereSDF : ℝ → ℝ → ℝ → ℝ := fun _theta _phi radius => radius

/-- The `Cube` entry of `ShapeMorphEngine.shapeSDFs`. -/
def cubeSDF : ℝ → ℝ → ℝ → ℝ := fun theta phi radius =>
  radius * max |Real.sin theta| |Real.cos phi|

/-- The `Cone` entry of `ShapeMorphEngine.shapeSDFs`. -/
def coneSDF : ℝ → ℝ → ℝ → ℝ := fun _theta phi radius =>
  radius * (1 - phi / Real.pi)

/-- The `Cylinder` entry of `ShapeMorphEngine.shapeSDFs`. -/
def cylinderSDF : ℝ → ℝ → ℝ → ℝ := fun _theta phi radius =>
  radius * Real.sin phi

/-- The `Torus` entry of `ShapeMorphEngine.shapeSDFs`:
`minorRadius = radius * 0.3; radius + minorRadius * cos phi`. -/
def torusSDF : ℝ → ℝ → ℝ → ℝ := fun _theta phi radius =>
  radius + (radius * 0.3) * Real.cos phi

/-- The `Parabola` entry of `ShapeMorphEngine.shapeSDFs`. -/
def parabolaSDF : ℝ → ℝ → ℝ → ℝ := fun _theta phi radius =>
  radius * (1 - (2 * phi / Real.pi - 1) ^ 2)

/-- Embedding of `ShapeMorphEngine.shapeSDFs` as a lookup: a JavaScript property access
`shapeSDFs[name]` yields the registered function, or `undefined` (`none`)
when `name` is not one of the six keys. -/
def shapeSDFs (name : String) : Option (ℝ → ℝ → ℝ → ℝ) :=
  if name = "Sphere" then some sphereSDF
  else if name = "Cube" then some cubeSDF
  else if name = "Cone" then some coneSDF
  else if name = "Cylinder" then some cylinderSDF
  else if name = "Torus" then some torusSDF
  else if name = "Parabola" then some parabolaSDF
  else none

/-- The `morphParams` record literal inside `getShapeParameters`; only the
`Sphere` and `Cube` keys are present in the source. -/
structure MorphParams where
  complexity : Option ℝ
  edgeSharpness : Option ℝ

/-- Return type of `ShapeMorphEngine.getShapeParameters`. -/
structure ShapeParameters where
  sdfFunction : ℝ → ℝ → ℝ → ℝ
  morphParams : Option MorphParams

/-- Embedding of `ShapeMorphEngine.getShapeParameters`: note the source line
`ShapeMorphEngine.shapeSDFs[shapeName] || ShapeMorphEngine.shapeSDFs.Sphere`,
which substitutes the Sphere profile when the name is unknown. -/
def getShapeParameters (shapeName : String) : ShapeParameters where
  sdfFunction := (shapeSDFs shapeName).getD sphereSDF
  morphParams :=
    if shapeName = "Sphere" then some { complexity := some 1.0, edgeSharpness := none }
    else if shapeName = "Cube" then some { complexity := none, edgeSharpness := some 0.8 }
    else none

/-- State of `this.config.shapeInterpolation` when non-null: `{from, to, duration}`. -/
structure ShapeInterpolation where
  fromShape : String
  toShape : String
  duration : ℚ
deriving DecidableEq

/-- State of `this.scalarField.shapeTransition`: `{from, to, progress}`, with `from`
and `to` initialised to `null`. -/
structure ShapeTransition where
  fromShape : Option String
  toShape : Option String
  progress : ℚ
deriving DecidableEq

/-- State of `this.config` of `SphericalCustomGeometry`. -/
structure GeoConfig where
  radius : ℝ
  polygonCount : ℕ
  gridWidth : ℕ
  gridHeight : ℕ
  morphSpeed : ℚ
  dynamicEvolution : Bool
  currentShape : String
  shapeInterpolation : Option ShapeInterpolation

/-- State of `this.scalarField`. -/
structure ScalarFieldState where
  time : ℚ
  shapeTransition : ShapeTransition

/-- One row of the per-vertex attribute buffer pushed by
`generateScalarFieldGeometry` (`lightProperties` is the reflectivity /
absorption pair). -/
structure VertexAttr where
  position : ℝ × ℝ × ℝ
  mass : ℝ
  charge : ℝ
  symmetryIndex : ℤ
  reflectivity : ℝ
  absorption : ℝ
  valency : ℤ
  volume : ℝ
  density : ℝ
  orientation : ℝ × ℝ × ℝ

/-- The mutable state of one `SphericalCustomGeometry` instance.  The
property matrix is indexed by the two clamped grid coordinates;
`attributes` is the most recently published buffer (`none` before the first
successful rebuild). -/
structure Geometry where
  config : GeoConfig
  propertyMatrix : ℕ → ℕ → PropertyCell
  scalarField : ScalarFieldState
  attributes : Option (List VertexAttr)

/-- The runtime error raised when a shape lookup yields `undefined` and the
result is then invoked (a `TypeError` in JavaScript). -/
inductive GeoError where
  | unknownShape
deriving DecidableEq

/-- Embedding of `THREE.MathUtils.lerp(x, y, t) = x + (y - x) * t`. -/
def lerp (x y t : ℝ) : ℝ := x + (y - x) * t

/-- The additive scalar-field modulation applied at the end of
`combinedSDF`. -/
def sfModulation (theta phi : ℝ) (props : PropertyCell) (time : ℝ) : ℝ :=
  Real.sin (theta * props.rugosity + time) * props.anisotropy * 10 +
    Real.cos (phi * props.sphericity + time) * props.convexity * 5

/-- Embedding of `combinedSDF(theta, phi, props, time)`: resolves the current shape
profile (throwing when `currentShape` is not registered), replaces the base
value by the lerp of the `from`/`to` profiles at
`scalarField.shapeTransition.progress` when `config.shapeInterpolation` is
set (throwing when either endpoint is unregistered), then adds the
modulation term. -/
def combinedSDF (g : Geometry) (theta phi : ℝ) (props : PropertyCell)
    (time : ℝ) : Except GeoError ℝ :=
  match shapeSDFs g.config.currentShape with
  | none => .error .unknownShape
  | some currentShapeSDF =>
    let radius := g.config.radius
    let base := currentShapeSDF theta phi radius
    match g.config.shapeInterpolation with
    | none => .ok (base + sfModulation theta phi props time)
    | some itp =>
      match shapeSDFs itp.fromShape, shapeSDFs itp.toShape with
      | some fromSDF, some toSDF =>
        .ok (lerp (fromSDF theta phi radius) (toSDF theta phi radius)
              ((g.scalarField.shapeTransition.progress : ℝ)) +
            sfModulation theta phi props time)
      | _, _ => .error .unknownShape

/-- The angle `theta = (i / polygonCount) * Math.PI * 2` for vertex `i`. -/
def vertexTheta (i polygonCount : ℕ) : ℝ :=
  ((i : ℝ) / (polygonCount : ℝ)) * Real.pi * 2

/-- The angle `phi = (i / polygonCount) * Math.PI` for vertex `i`. -/
def vertexPhi (i polygonCount : ℕ) : ℝ :=
  ((i : ℝ) / (polygonCount : ℝ)) * Real.pi

/-- The index `Math.min(Math.floor((theta / (Math.PI * 2)) * gridWidth), gridWidth - 1)`. -/
def gridIndexX (theta : ℝ) (gridWidth : ℕ) : ℤ :=
  min ⌊theta / (Real.pi * 2) * (gridWidth : ℝ)⌋ ((gridWidth : ℤ) - 1)

/-- The index `Math.min(Math.floor((phi / Math.PI) * gridHeight), gridHeight - 1)`. -/
def gridIndexY (phi : ℝ) (gridHeight : ℕ) : ℤ :=
  min ⌊phi / Real.pi * (gridHeight : ℝ)⌋ ((gridHeight : ℤ) - 1)

/-- The body of one iteration of the vertex loop of
`generateScalarFieldGeometry`: derive the angles, fetch the property cell at
the clamped grid coordinates, evaluate `combinedSDF`, and assemble the
per-vertex attribute row. -/
def vertexAttrAt (g : Geometry) (i : ℕ) : Except GeoError VertexAttr :=
  let theta := vertexTheta i g.config.polygonCount
  let phi := vertexPhi i g.config.polygonCount
  let props := g.propertyMatrix (gridIndexX theta g.config.gridWidth).toNat
    (gridIndexY phi g.config.gridHeight).toNat
  match combinedSDF g theta phi props ((g.scalarField.time : ℝ)) with
  | .error e => .error e
  | .ok dynamicRadius =>
    .ok {
      position := (dynamicRadius * Real.sin phi * Real.cos theta,
                   dynamicRadius * Real.sin phi * Real.sin theta,
                   dynamicRadius * Real.cos phi)
      mass := 10 + props.sphericity * 5
      charge := (props.rugosity - 0.5) * 2
      symmetryIndex := ⌊props.axisSymmetry * 8⌋
      reflectivity := 0.3 + props.smoothness * 0.5
      absorption := 0.2 + props.edgeSharpness * 0.3
      valency := ⌊props.localConnectivity * 4⌋
      volume := 10 + props.densityGradient * 10
      density := 0.2 + props.rigidity * 0.3
      orientation := (0, 1, 0) }

/-- The full per-vertex sweep of `generateScalarFieldGeometry`: the loop
accumulates rows into local arrays, so the result exists only as a whole
when every iteration succeeds; the first exception aborts the loop. -/
def scalarFieldSweep (g : Geometry) : Except GeoError (List VertexAttr) :=
  (List.range g.config.polygonCount).mapM (vertexAttrAt g)

/-- Embedding of `generateScalarFieldGeometry`: on success the freshly built rows are
published via `setAttribute` (which runs only after the loop completes); on
an exception the `catch` block logs and rethrows, leaving every attribute of
`this` untouched. -/
def generateScalarFieldGeometry (g : Geometry) : Geometry × Option GeoError :=
  match scalarFieldSweep g with
  | .ok rows => ({ g with attributes := some rows }, none)
  | .error e => (g, some e)

/-- Embedding of `morphToShape(targetShape, duration)`: an unregistered target is logged
as an error and the method returns with the state untouched (the `some`
component records the reported rejection); otherwise the interpolation and
transition records are installed, progress is reset to `0`, and
`currentShape` is immediately set to the target. -/
def morphToShape (targetShape : String) (duration : ℚ) (g : Geometry) :
    Geometry × Option GeoError :=
  match shapeSDFs targetShape with
  | none => (g, some .unknownShape)
  | some _ =>
    let currentShape := g.config.currentShape
    ({ g with
        config := { g.config with
          shapeInterpolation := some
            { fromShape := currentShape, toShape := targetShape, duration := duration }
          currentShape := targetShape }
        scalarField := { g.scalarField with
          shapeTransition :=
            { fromShape := some currentShape, toShape := some targetShape,
              progress := 0 } } },
      none)

/-- The shape-interpolation step inside `update`: read the old progress, set
`progress = Math.min(progress + deltaTime / duration, 1)`, and when the new
progress has reached `1`, null out `config.shapeInterpolation`. -/
def tickTransition (deltaTime : ℚ) (g : Geometry) : Geometry :=
  match g.config.shapeInterpolation with
  | none => g
  | some itp =>
    let progress := g.scalarField.shapeTransition.progress
    let newProgress := min (progress + deltaTime / itp.duration) 1
    let g1 := { g with scalarField := { g.scalarField with
      shapeTransition := { g.scalarField.shapeTransition with progress := newProgress } } }
    if 1 ≤ newProgress then
      { g1 with config := { g1.config with shapeInterpolation := none } }
    else g1

/-- Embedding of `update(deltaTime)`: when `config.dynamicEvolution` holds, advance
`scalarField.time` by `deltaTime * morphSpeed`, run the interpolation step,
and regenerate the geometry (an exception there propagates to the caller
after the state mutations have already happened); otherwise do nothing. -/
def update (deltaTime : ℚ) (g : Geometry) : Geometry × Option GeoError :=
  if g.config.dynamicEvolution then
    let g1 := { g with scalarField := { g.scalarField with
      time := g.scalarField.time + deltaTime * g.config.morphSpeed } }
    generateScalarFieldGeometry (tickTransition deltaTime g1)
  else (g, none)

/-- JavaScript `a || b` for an optional numeric configuration entry:
`0` and `undefined` are falsy. -/
def jsOrNat (given : Option ℕ) (fallback : ℕ) : ℕ :=
  match given with
  | some n => if n = 0 then fallback else n
  | none => fallback

/-- JavaScript `a || b` for an optional rational configuration entry. -/
def jsOrRat (given : Option ℚ) (fallback : ℚ) : ℚ :=
  match given with
  | some q => if q = 0 then fallback else q
  | none => fallback

/-- JavaScript `a || b` for an optional boolean configuration entry:
`false` and `undefined` are falsy, so the result is `b` in both cases. -/
def jsOrBool (given : Option Bool) (fallback : Bool) : Bool :=
  match given with
  | some b => b || fallback
  | none => fallback

/-- JavaScript `a || b` for an optional string configuration entry: the
empty string and `undefined` are falsy. -/
def jsOrString (given : Option String) (fallback : String) : String :=
  match given with
  | some s => if s = "" then fallback else s
  | none => fallback

/-- The caller-supplied `config` object of the constructor; absent keys are
`none`. -/
structure CtorConfig where
  gridWidth : Option ℕ
  gridHeight : Option ℕ
  morphSpeed : Option ℚ
  dynamicEvolution : Option Bool
  currentShape : Option String

/-- An empty constructor `config` object. -/
def defaultCtorConfig : CtorConfig :=
  { gridWidth := none, gridHeight := none, morphSpeed := none,
    dynamicEvolution := none, currentShape := none }

/-- The `SphericalCustomGeometry` constructor: apply the `||`-defaults
(note `dynamicEvolution: config.dynamicEvolution || true`), build the
property matrix from the two random draws, zero the scalar field, and run
the initial `generateScalarFieldGeometry` (whose exception, if any, would
propagate out of the constructor). -/
def mkGeometry (radius : ℝ) (polygonCount : ℕ) (cfg : CtorConfig)
    (randAnisotropy randRugosity : ℕ → ℕ → ℝ) : Geometry × Option GeoError :=
  let g0 : Geometry := {
    config := {
      radius := radius
      polygonCount := polygonCount
      gridWidth := jsOrNat cfg.gridWidth 200
      gridHeight := jsOrNat cfg.gridHeight 200
      morphSpeed := jsOrRat cfg.morphSpeed (1 / 2)
      dynamicEvolution := jsOrBool cfg.dynamicEvolution true
      currentShape := jsOrString cfg.currentShape "Sphere"
      shapeInterpolation := none }
    propertyMatrix := fun x y => generatePropertyCell (randAnisotropy x y) (randRugosity x y)
    scalarField := { time := 0, shapeTransition :=
      { fromShape := none, toShape := none, progress := 0 } }
    attributes := none }
  generateScalarFieldGeometry g0

/-- One external operation on the engine after construction. -/
inductive EngineOp where
  | morphRequest (targetShape : String) (duration : ℚ)
  | frameTick (deltaTime : ℚ)

/-- Apply one operation, keeping the resulting state. -/
def applyOp (g : Geometry) : EngineOp → Geometry
  | .morphRequest t d => (morphToShape t d g).1
  | .frameTick dt => (update dt g).1

/-- Run a sequence of operations from a starting state. -/
def runOps (g : Geometry) (ops : List EngineOp) : Geometry :=
  ops.foldl applyOp g

/-- Well-formed driver inputs: morph durations are positive and frame
deltas nonnegative. -/
def validOp : EngineOp → Prop
  | .morphRequest _ d => 0 < d
  | .frameTick dt => 0 ≤ dt

/-- The transition-state invariant: progress lies in `[0,1]`, and while an
interpolation is pending its progress is still short of `1` and its stored
duration is positive. -/
def ProgressInv (g : Geometry) : Prop :=
  0 ≤ g.scalarField.shapeTransition.progress ∧
    g.scalarField.shapeTransition.progress ≤ 1 ∧
    ∀ itp, g.config.shapeInterpolation = some itp →
      g.scalarField.shapeTransition.progress < 1 ∧ 0 < itp.duration

/-- A concrete engine instance used to instantiate theorems: default
construction options, `polygonCount = 0`, zero random draws. -/
def sampleGeometry : Geometry :=
  (mkGeometry 100 0 defaultCtorConfig (fun _ _ => 0) (fun _ _ => 0)).1

theorem generate_fst_config (g : Geometry) :
    (generateScalarFieldGeometry g).1.config = g.config := by
  cases h : scalarFieldSweep g <;> simp [generateScalarFieldGeometry, h]

theorem generate_fst_propertyMatrix (g : Geometry) :
    (generateScalarFieldGeometry g).1.propertyMatrix = g.propertyMatrix := by
  cases h : scalarFieldSweep g <;> simp [generateScalarFieldGeometry, h]

theorem generate_fst_scalarField (g : Geometry) :
    (generateScalarFieldGeometry g).1.scalarField = g.scalarField := by
  cases h : scalarFieldSweep g <;> simp [generateScalarFieldGeometry, h]

theorem tickTransition_of_none (dt : ℚ) (g : Geometry)
    (h : g.config.shapeInterpolation = none) : tickTransition dt g = g := by
  simp [tickTransition, h]

theorem tickTransition_progress (dt : ℚ) (g : Geometry) (itp : ShapeInterpolation)
    (h : g.config.shapeInterpolation = some itp) :
    (tickTransition dt g).scalarField.shapeTransition.progress =
      min (g.scalarField.shapeTransition.progress + dt / itp.duration) 1 := by
  simp only [tickTransition, h]
  split <;> rfl

theorem tickTransition_interp (dt : ℚ) (g : Geometry) (itp : ShapeInterpolation)
    (h : g.config.shapeInterpolation = some itp) :
    (tickTransition dt g).config.shapeInterpolation =
      if 1 ≤ min (g.scalarField.shapeTransition.progress + dt / itp.duration) 1 then none
      else some itp := by
  simp only [tickTransition, h]
  split <;> simp_all

theorem tickTransition_time (dt : ℚ) (g : Geometry) :
    (tickTransition dt g).scalarField.time = g.scalarField.time := by
  unfold tickTransition
  cases g.config.shapeInterpolation
  · rfl
  · dsimp only
    split <;> rfl

theorem tickTransition_currentShape (dt : ℚ) (g : Geometry) :
    (tickTransition dt g).config.currentShape = g.config.currentShape := by
  unfold tickTransition
  cases g.config.shapeInterpolation
  · rfl
  · dsimp only
    split <;> rfl

theorem tickTransition_dynamicEvolution (dt : ℚ) (g : Geometry) :
    (tickTransition dt g).config.dynamicEvolution = g.config.dynamicEvolution := by
  unfold tickTransition
  cases g.config.shapeInterpolation
  · rfl
  · dsimp only
    split <;> rfl

/-- The time-advance step at the top of the evolution branch of `update`. -/
def bumpTime (dt : ℚ) (g : Geometry) : Geometry :=
  { g with scalarField := { g.scalarField with
      time := g.scalarField.time + dt * g.config.morphSpeed } }

theorem update_of_dynamicEvolution (dt : ℚ) (g : Geometry)
    (h : g.config.dynamicEvolution = true) :
    update dt g = generateScalarFieldGeometry (tickTransition dt (bumpTime dt g)) := by
  simp [update, h, bumpTime]

theorem update_of_not_dynamicEvolution (dt : ℚ) (g : Geometry)
    (h : g.config.dynamicEvolution = false) :
    update dt g = (g, none) := by
  simp [update, h]

theorem mkGeometry_fst_config (radius : ℝ) (polygonCount : ℕ) (cfg : CtorConfig)
    (randAnisotropy randRugosity : ℕ → ℕ → ℝ) :
    (mkGeometry radius polygonCount cfg randAnisotropy randRugosity).1.config =
      { radius := radius
        polygonCount := polygonCount
        gridWidth := jsOrNat cfg.gridWidth 200
        gridHeight := jsOrNat cfg.gridHeight 200
        morphSpeed := jsOrRat cfg.morphSpeed (1 / 2)
        dynamicEvolution := jsOrBool cfg.dynamicEvolution true
        currentShape := jsOrString cfg.currentShape "Sphere"
        shapeInterpolation := none } := by
  simp [mkGeometry, generate_fst_config]

theorem mkGeometry_fst_scalarField (radius : ℝ) (polygonCount : ℕ) (cfg : CtorConfig)
    (randAnisotropy randRugosity : ℕ → ℕ → ℝ) :
    (mkGeometry radius polygonCount cfg randAnisotropy randRugosity).1.scalarField =
      { time := 0, shapeTransition :=
        { fromShape := none, toShape := none, progress := 0 } } := by
  simp [mkGeometry, generate_fst_scalarField]

theorem morphToShape_of_registered (targetShape : String) (duration : ℚ)
    (g : Geometry) (f : ℝ → ℝ → ℝ → ℝ) (h : shapeSDFs targetShape = some f) :
    morphToShape targetShape duration g =
      ({ g with
          config := { g.config with
            shapeInterpolation := some
              { fromShape := g.config.currentShape, toShape := targetShape,
                duration := duration }
            currentShape := targetShape }
          scalarField := { g.scalarField with
            shapeTransition :=
              { fromShape := some g.config.currentShape, toShape := some targetShape,
                progress := 0 } } },
        none) := by
  simp [morphToShape, h]

theorem update_effect_interp (dt : ℚ) (g : Geometry) (itp : ShapeInterpolation)
    (hevo : g.config.dynamicEvolution = true)
    (hitp : g.config.shapeInterpolation = some itp) :
    (update dt g).1.scalarField.shapeTransition.progress =
      min (g.scalarField.shapeTransition.progress + dt / itp.duration) 1 ∧
    (update dt g).1.config.shapeInterpolation =
      (if 1 ≤ min (g.scalarField.shapeTransition.progress + dt / itp.duration) 1 then none
        else some itp) ∧
    (update dt g).1.config.currentShape = g.config.currentShape ∧
    (update dt g).1.config.dynamicEvolution = g.config.dynamicEvolution ∧
    (update dt g).1.scalarField.time = g.scalarField.time + dt * g.config.morphSpeed := by
  have hb : (bumpTime dt g).config.shapeInterpolation = some itp := hitp
  rw [update_of_dynamicEvolution dt g hevo]
  refine ⟨?_, ?_, ?_, ?_, ?_⟩
  · rw [generate_fst_scalarField]
    exact tickTransition_progress dt (bumpTime dt g) itp hb
  · rw [generate_fst_config]
    exact tickTransition_interp dt (bumpTime dt g) itp hb
  · rw [generate_fst_config]
    exact tickTransition_currentShape dt (bumpTime dt g)
  · rw [generate_fst_config]
    exact tickTransition_dynamicEvolution dt (bumpTime dt g)
  · rw [generate_fst_scalarField]
    exact tickTransition_time dt (bumpTime dt g)

theorem update_effect_no_interp (dt : ℚ) (g : Geometry)
    (hevo : g.config.dynamicEvolution = true)
    (hnone : g.config.shapeInterpolation = none) :
    (update dt g).1.scalarField.shapeTransition = g.scalarField.shapeTransition ∧
    (update dt g).1.config.shapeInterpolation = none ∧
    (update dt g).1.config.currentShape = g.config.currentShape ∧
    (update dt g).1.config.dynamicEvolution = g.config.dynamicEvolution ∧
    (update dt g).1.scalarField.time = g.scalarField.time + dt * g.config.morphSpeed := by
  have hb : (bumpTime dt g).config.shapeInterpolation = none := hnone
  rw [update_of_dynamicEvolution dt g hevo, tickTransition_of_none dt (bumpTime dt g) hb]
  exact ⟨by rw [generate_fst_scalarField]; rfl,
    by rw [generate_fst_config]; exact hnone,
    by rw [generate_fst_config]; rfl,
    by rw [generate_fst_config]; rfl,
    by rw [generate_fst_scalarField]; rfl⟩

/-- A geometry whose initial shape name is not in the library, so every
rebuild sweep throws at the first vertex. -/
def badShapeGeometry : Geometry :=
  (mkGeometry 100 1 { defaultCtorConfig with currentShape := some "Bogus" }
    (fun _ _ => 0) (fun _ _ => 0)).1

/-- C5: for every θ, φ and base radius r, each of the six registered shape
profiles returns exactly its table formula: Sphere = r,
Cube = r·max(|sin θ|, |cos φ|), Cone = r·(1 − φ/π), Cylinder = r·sin φ,
Torus = r + 0.3r·cos φ, Parabola = r·(1 − (2φ/π − 1)²). -/
theorem shapeProfileFormulas :
    (shapeSDFs "Sphere" = some sphereSDF ∧ shapeSDFs "Cube" = some cubeSDF ∧
      shapeSDFs "Cone" = some coneSDF ∧ shapeSDFs "Cylinder" = some cylinderSDF ∧
      shapeSDFs "Torus" = some torusSDF ∧ shapeSDFs "Parabola" = some parabolaSDF) ∧
    ∀ theta phi r : ℝ,
      sphereSDF theta phi r = r ∧
      cubeSDF theta phi r = r * max |Real.sin theta| |Real.cos phi| ∧
      coneSDF theta phi r = r * (1 - phi / Real.pi) ∧
      cylinderSDF theta phi r = r * Real.sin phi ∧
      torusSDF theta phi r = r + 0.3 * r * Real.cos phi ∧
      parabolaSDF theta phi r = r * (1 - (2 * phi / Real.pi - 1) ^ 2) := by
  refine ⟨⟨rfl, rfl, rfl, rfl, rfl, rfl⟩, fun theta phi r => ⟨rfl, rfl, rfl, rfl, ?_, rfl⟩⟩
  unfold torusSDF
  ring

/-- C2 (amended): a morph request for a shape identifier that is not in the
library reports the unknown-shape error and leaves the whole engine state —
in particular `currentShape` and the transition state — unchanged, and the
`morphToShape` lookup never falls back; however `getShapeParameters`
substitutes the Sphere profile for an unknown identifier. -/
theorem morphUnknownShapeRejected (targetShape : String) (duration : ℚ)
    (g : Geometry) (h : shapeSDFs targetShape = none) :
    morphToShape targetShape duration g = (g, some GeoError.unknownShape) ∧
      (getShapeParameters targetShape).sdfFunction = sphereSDF := by
  constructor
  · simp [morphToShape, h]
  · simp [getShapeParameters, h]

/-- Witness for C2: the unknown identifier `"Nonexistent"` at a concrete
engine state. -/
theorem morphUnknownShapeRejectedWitness :
    morphToShape "Nonexistent" 1 sampleGeometry =
        (sampleGeometry, some GeoError.unknownShape) ∧
      (getShapeParameters "Nonexistent").sdfFunction = sphereSDF :=
  morphUnknownShapeRejected "Nonexistent" 1 sampleGeometry rfl

/-- Counterexample for C2: `getShapeParameters` applied to the unknown
identifier `"Nonexistent"` silently yields the Sphere profile `fun θ φ r => r`
instead of an error, contradicting the claim that lookup of an unknown
identifier never falls back silently to another shape. -/
theorem getShapeParametersFallsBack :
    (getShapeParameters "Nonexistent").sdfFunction = sphereSDF ∧
      (getShapeParameters "Nonexistent").sdfFunction = fun _theta _phi radius => radius :=
  ⟨rfl, rfl⟩

/-- C1 (code evaluated at the failing input): `morphToShape "Cube" 0` on a
freshly constructed engine is not rejected — no error is reported and the
state is mutated: `currentShape` becomes `"Cube"` and an interpolation with
duration `0` is installed, although the state before the call was Idle with
`currentShape = "Sphere"`. -/
theorem morphZeroDurationAccepted :
    (morphToShape "Cube" 0 sampleGeometry).2 = none ∧
    (morphToShape "Cube" 0 sampleGeometry).1.config.currentShape = "Cube" ∧
    (morphToShape "Cube" 0 sampleGeometry).1.config.shapeInterpolation =
      some { fromShape := "Sphere", toShape := "Cube", duration := 0 } ∧
    (morphToShape "Cube" 0 sampleGeometry).1.scalarField.shapeTransition =
      { fromShape := some "Sphere", toShape := some "Cube", progress := 0 } ∧
    sampleGeometry.config.currentShape = "Sphere" ∧
    sampleGeometry.config.shapeInterpolation = none :=
  ⟨rfl, rfl, rfl, rfl, rfl, rfl⟩

/-- C7: if the per-vertex sweep of a rebuild raises an error, the rebuild
aborts with exactly that error surfaced to the caller and the geometry state
— in particular the previously published attribute buffer — is returned
completely untouched. -/
theorem rebuildFailureAtomic (g : Geometry) (e : GeoError)
    (h : scalarFieldSweep g = Except.error e) :
    generateScalarFieldGeometry g = (g, some e) := by
  simp [generateScalarFieldGeometry, h]

/-- Witness for C7: a geometry whose current shape is unregistered makes the
sweep fail, and the rebuild returns the state unchanged with the error. -/
theorem rebuildFailureAtomicWitness :
    scalarFieldSweep badShapeGeometry = Except.error GeoError.unknownShape ∧
      generateScalarFieldGeometry badShapeGeometry =
        (badShapeGeometry, some GeoError.unknownShape) :=
  ⟨rfl, rebuildFailureAtomic badShapeGeometry GeoError.unknownShape rfl⟩

/-- C9: for every vertex index `i < polygonCount` and grid dimensions at
least 1, the derived grid lookup indices are within
`[0, gridWidth−1] × [0, gridHeight−1]`. -/
theorem gridIndicesInBounds (i polygonCount gridWidth gridHeight : ℕ)
    (_hi : i < polygonCount) (hw : 1 ≤ gridWidth) (hh : 1 ≤ gridHeight) :
    (0 ≤ gridIndexX (vertexTheta i polygonCount) gridWidth ∧
      gridIndexX (vertexTheta i polygonCount) gridWidth ≤ (gridWidth : ℤ) - 1) ∧
    (0 ≤ gridIndexY (vertexPhi i polygonCount) gridHeight ∧
      gridIndexY (vertexPhi i polygonCount) gridHeight ≤ (gridHeight : ℤ) - 1) := by
  have hpi : (0:ℝ) < Real.pi := Real.pi_pos
  have hx : vertexTheta i polygonCount / (Real.pi * 2) * (gridWidth : ℝ) =
      ((i : ℝ) / (polygonCount : ℝ)) * (gridWidth : ℝ) := by
    unfold vertexTheta
    rw [mul_assoc, mul_div_cancel_right₀ _ (by positivity : Real.pi * 2 ≠ 0)]
  have hy : vertexPhi i polygonCount / Real.pi * (gridHeight : ℝ) =
      ((i : ℝ) / (polygonCount : ℝ)) * (gridHeight : ℝ) := by
    unfold vertexPhi
    rw [mul_div_cancel_right₀ _ Real.pi_ne_zero]
  have hwz : (0:ℤ) ≤ (gridWidth : ℤ) - 1 := by
    have : (1:ℤ) ≤ (gridWidth : ℤ) := by exact_mod_cast hw
    omega
  have hhz : (0:ℤ) ≤ (gridHeight : ℤ) - 1 := by
    have : (1:ℤ) ≤ (gridHeight : ℤ) := by exact_mod_cast hh
    omega
  have hxnn : (0:ℝ) ≤ ((i : ℝ) / (polygonCount : ℝ)) * (gridWidth : ℝ) := by positivity
  have hynn : (0:ℝ) ≤ ((i : ℝ) / (polygonCount : ℝ)) * (gridHeight : ℝ) := by positivity
  refine ⟨⟨?_, ?_⟩, ?_, ?_⟩
  · unfold gridIndexX
    rw [hx]
    exact le_min (Int.floor_nonneg.mpr hxnn) hwz
  · exact min_le_right _ _
  · unfold gridIndexY
    rw [hy]
    exact le_min (Int.floor_nonneg.mpr hynn) hhz
  · exact min_le_right _ _

/-- Witness for C9: vertex 0 of a 1-vertex, 1×1-grid configuration. -/
theorem gridIndicesInBoundsWitness :
    (0 ≤ gridIndexX (vertexTheta 0 1) 1 ∧
      gridIndexX (vertexTheta 0 1) 1 ≤ (1 : ℤ) - 1) ∧
    (0 ≤ gridIndexY (vertexPhi 0 1) 1 ∧
      gridIndexY (vertexPhi 0 1) 1 ≤ (1 : ℤ) - 1) :=
  gridIndicesInBounds 0 1 1 1 (by decide) (by decide) (by decide)

/-- C4: for every angle pair, property cell and time, `combinedSDF` equals
the lerp of the `from` and `to` profiles at the transition progress when an
interpolation is in progress (and the current shape profile otherwise) plus
`sin(θ·rugosity + time)·anisotropy·10 + cos(φ·sphericity + time)·convexity·5`,
and the result is unclamped: it can exceed the base radius and go negative. -/
theorem combinedSDFFormula :
    (∀ (g : Geometry) (theta phi : ℝ) (props : PropertyCell) (time : ℝ)
        (f : ℝ → ℝ → ℝ → ℝ),
      shapeSDFs g.config.currentShape = some f →
      g.config.shapeInterpolation = none →
      combinedSDF g theta phi props time =
        .ok (f theta phi g.config.radius +
          (Real.sin (theta * props.rugosity + time) * props.anisotropy * 10 +
            Real.cos (phi * props.sphericity + time) * props.convexity * 5))) ∧
    (∀ (g : Geometry) (theta phi : ℝ) (props : PropertyCell) (time : ℝ)
        (f fromSDF toSDF : ℝ → ℝ → ℝ → ℝ) (itp : ShapeInterpolation),
      shapeSDFs g.config.currentShape = some f →
      g.config.shapeInterpolation = some itp →
      shapeSDFs itp.fromShape = some fromSDF →
      shapeSDFs itp.toShape = some toSDF →
      combinedSDF g theta phi props time =
        .ok (lerp (fromSDF theta phi g.config.radius) (toSDF theta phi g.config.radius)
            ((g.scalarField.shapeTransition.progress : ℝ)) +
          (Real.sin (theta * props.rugosity + time) * props.anisotropy * 10 +
            Real.cos (phi * props.sphericity + time) * props.convexity * 5))) ∧
    (∃ (g : Geometry) (theta phi : ℝ) (props : PropertyCell) (time v : ℝ),
      combinedSDF g theta phi props time = .ok v ∧ g.config.radius < v) ∧
    (∃ (g : Geometry) (theta phi : ℝ) (props : PropertyCell) (time v : ℝ),
      combinedSDF g theta phi props time = .ok v ∧ v < 0) := by
  refine ⟨?_, ?_, ?_, ?_⟩
  · intro g theta phi props time f hcur hint
    simp [combinedSDF, hcur, hint, sfModulation]
  · intro g theta phi props time f fromSDF toSDF itp hcur hint hfrom hto
    simp [combinedSDF, hcur, hint, hfrom, hto, sfModulation]
  · refine ⟨sampleGeometry, 0, 0, generatePropertyCell 1 0, 0, 105, ?_, ?_⟩
    · have hcur : shapeSDFs sampleGeometry.config.currentShape = some sphereSDF := rfl
      have hint : sampleGeometry.config.shapeInterpolation = none := rfl
      have hrad : sampleGeometry.config.radius = 100 := rfl
      simp only [combinedSDF, hcur, hint, sfModulation, hrad, generatePropertyCell,
        sphereSDF]
      norm_num
    · have hrad : sampleGeometry.config.radius = 100 := rfl
      rw [hrad]
      norm_num
  · refine ⟨{ sampleGeometry with config := { sampleGeometry.config with radius := 1 } },
      0, 0, generatePropertyCell 0 0, Real.pi, -4, ?_, by norm_num⟩
    have hcur : shapeSDFs sampleGeometry.config.currentShape = some sphereSDF := rfl
    have hint : sampleGeometry.config.shapeInterpolation = none := rfl
    simp only [combinedSDF, hcur, hint, sfModulation, generatePropertyCell, sphereSDF]
    norm_num [Real.cos_pi]

/-- Witness for C4: the no-transition branch of the formula evaluated at a
concrete Sphere-shaped engine state. -/
theorem combinedSDFFormulaWitness :
    combinedSDF sampleGeometry 0 0 (generatePropertyCell 1 0) 0 =
      .ok (sphereSDF 0 0 sampleGeometry.config.radius +
        (Real.sin (0 * (generatePropertyCell 1 0).rugosity + 0) *
            (generatePropertyCell 1 0).anisotropy * 10 +
          Real.cos (0 * (generatePropertyCell 1 0).sphericity + 0) *
            (generatePropertyCell 1 0).convexity * 5)) :=
  combinedSDFFormula.1 sampleGeometry 0 0 (generatePropertyCell 1 0) 0 sphereSDF rfl rfl

/-- C10: a rebuild reads only the config, the property matrix and the scalar
field, none of which it modifies, so running `generateScalarFieldGeometry`
again on its own result reproduces the same state and attribute buffer
bit-for-bit. -/
theorem rebuildIdempotent (g : Geometry) :
    (generateScalarFieldGeometry g).1.config = g.config ∧
    (generateScalarFieldGeometry g).1.scalarField = g.scalarField ∧
    (generateScalarFieldGeometry g).1.propertyMatrix = g.propertyMatrix ∧
    generateScalarFieldGeometry (generateScalarFieldGeometry g).1 =
      generateScalarFieldGeometry g := by
  refine ⟨generate_fst_config g, generate_fst_scalarField g,
    generate_fst_propertyMatrix g, ?_⟩
  have hsw : ∀ b, scalarFieldSweep { g with attributes := b } = scalarFieldSweep g :=
    fun _ => rfl
  cases h : scalarFieldSweep g with
  | ok rows => simp [generateScalarFieldGeometry, h, hsw]
  | error e => simp [generateScalarFieldGeometry, h]

/-- A geometry constructed with `dynamicEvolution: false` in the options
object. -/
def evolutionOffGeometry : Geometry :=
  (mkGeometry 100 0 { defaultCtorConfig with dynamicEvolution := some false }
    (fun _ _ => 0) (fun _ _ => 0)).1

/-- A geometry whose stored `dynamicEvolution` field is `false` (which the
constructor itself can never produce). -/
def manualEvolutionOffGeometry : Geometry :=
  { sampleGeometry with config :=
    { sampleGeometry.config with dynamicEvolution := false } }

/-- C6 (code evaluated at the failing input): constructing with the
dynamic-evolution option set to `false` stores `true` (the constructor
computes `config.dynamicEvolution || true`), so `update 1` on that instance
is not a no-op — it advances the time from `0` to `1·morphSpeed = 1/2`.
`update` is a no-op only for a state whose stored flag is `false`. -/
theorem dynamicEvolutionFlagIgnored :
    evolutionOffGeometry.config.dynamicEvolution = true ∧
    evolutionOffGeometry.scalarField.time = 0 ∧
    (update 1 evolutionOffGeometry).1.scalarField.time = 1 / 2 ∧
    ∀ (dt : ℚ) (g : Geometry), g.config.dynamicEvolution = false →
      update dt g = (g, none) := by
  refine ⟨rfl, rfl, ?_, fun dt g h => update_of_not_dynamicEvolution dt g h⟩
  have ht : evolutionOffGeometry.scalarField.time = 0 := rfl
  have hms : evolutionOffGeometry.config.morphSpeed = 1 / 2 := rfl
  rw [(update_effect_no_interp 1 evolutionOffGeometry rfl rfl).2.2.2.2, ht, hms]
  norm_num

/-- Witness for C6: `update` leaves a state with a stored `false` flag
completely unchanged. -/
theorem dynamicEvolutionFlagIgnoredWitness :
    update 1 manualEvolutionOffGeometry = (manualEvolutionOffGeometry, none) :=
  dynamicEvolutionFlagIgnored.2.2.2 1 manualEvolutionOffGeometry rfl

/-- C3: starting Idle with `currentShape = "Sphere"`, a morph request to
`"Cube"` over duration 2 followed by `update 1` yields progress `1/2` with
the interpolation still pending; a further `update 1` yields progress `1`,
clears the interpolation (Idle) and leaves `currentShape = "Cube"`; and in
general every `update` while transitioning (with evolution on) sets
progress to `min(progress + deltaTime/duration, 1)`. -/
theorem morphCubeTickScenario :
    (∀ (radius : ℝ) (polygonCount : ℕ) (randA randR : ℕ → ℕ → ℝ)
        (g1 g2 g3 : Geometry),
      g1 = (morphToShape "Cube" 2
        (mkGeometry radius polygonCount defaultCtorConfig randA randR).1).1 →
      g2 = (update 1 g1).1 →
      g3 = (update 1 g2).1 →
      g2.scalarField.shapeTransition.progress = 1 / 2 ∧
      g2.config.shapeInterpolation.isSome = true ∧
      g3.scalarField.shapeTransition.progress = 1 ∧
      g3.config.shapeInterpolation = none ∧
      g3.config.currentShape = "Cube") ∧
    (∀ (g : Geometry) (itp : ShapeInterpolation) (deltaTime : ℚ),
      g.config.dynamicEvolution = true →
      g.config.shapeInterpolation = some itp →
      (update deltaTime g).1.scalarField.shapeTransition.progress =
        min (g.scalarField.shapeTransition.progress + deltaTime / itp.duration) 1) := by
  constructor
  · intro radius polygonCount randA randR g1 g2 g3 h1 h2 h3
    have hc0 := mkGeometry_fst_config radius polygonCount defaultCtorConfig randA randR
    have hs0 := mkGeometry_fst_scalarField radius polygonCount defaultCtorConfig randA randR
    have hcur : (mkGeometry radius polygonCount defaultCtorConfig
        randA randR).1.config.currentShape = "Sphere" := by rw [hc0]; rfl
    have hevo : (mkGeometry radius polygonCount defaultCtorConfig
        randA randR).1.config.dynamicEvolution = true := by rw [hc0]; rfl
    have hm := morphToShape_of_registered "Cube" 2
      (mkGeometry radius polygonCount defaultCtorConfig randA randR).1 cubeSDF rfl
    have hg1int : g1.config.shapeInterpolation = some ⟨"Sphere", "Cube", 2⟩ := by
      rw [h1, hm]
      simp [hcur]
    have hg1prog : g1.scalarField.shapeTransition.progress = 0 := by rw [h1, hm]
    have hg1evo : g1.config.dynamicEvolution = true := by rw [h1, hm]; exact hevo
    have hg1cur : g1.config.currentShape = "Cube" := by rw [h1, hm]
    have h2eff := update_effect_interp 1 g1 ⟨"Sphere", "Cube", 2⟩ hg1evo hg1int
    have hg2prog : g2.scalarField.shapeTransition.progress = 1 / 2 := by
      rw [h2, h2eff.1, hg1prog]
      norm_num
    have hg2int : g2.config.shapeInterpolation = some ⟨"Sphere", "Cube", 2⟩ := by
      rw [h2, h2eff.2.1, hg1prog, if_neg]
      norm_num
    have hg2evo : g2.config.dynamicEvolution = true := by
      rw [h2, h2eff.2.2.2.1]
      exact hg1evo
    have hg2cur : g2.config.currentShape = "Cube" := by
      rw [h2, h2eff.2.2.1]
      exact hg1cur
    have h3eff := update_effect_interp 1 g2 ⟨"Sphere", "Cube", 2⟩ hg2evo hg2int
    have hg3prog : g3.scalarField.shapeTransition.progress = 1 := by
      rw [h3, h3eff.1, hg2prog]
      norm_num
    have hg3int : g3.config.shapeInterpolation = none := by
      rw [h3, h3eff.2.1, hg2prog, if_pos]
      norm_num
    have hg3cur : g3.config.currentShape = "Cube" := by
      rw [h3, h3eff.2.2.1]
      exact hg2cur
    exact ⟨hg2prog, by rw [hg2int]; rfl, hg3prog, hg3int, hg3cur⟩
  · intro g itp deltaTime hevo hitp
    exact (update_effect_interp deltaTime g itp hevo hitp).1

/-- Witness for C3: the scenario and the general tick rule instantiated at a
concrete engine built with radius 100. -/
theorem morphCubeTickScenarioWitness :
    ((update 1 (morphToShape "Cube" 2 sampleGeometry).1).1.scalarField.shapeTransition.progress
        = 1 / 2 ∧
      (update 1 (morphToShape "Cube" 2
        sampleGeometry).1).1.config.shapeInterpolation.isSome = true ∧
      (update 1 (update 1 (morphToShape "Cube" 2
        sampleGeometry).1).1).1.scalarField.shapeTransition.progress = 1 ∧
      (update 1 (update 1 (morphToShape "Cube" 2
        sampleGeometry).1).1).1.config.shapeInterpolation = none ∧
      (update 1 (update 1 (morphToShape "Cube" 2
        sampleGeometry).1).1).1.config.currentShape = "Cube") ∧
    (update 1 (morphToShape "Cube" 2
        sampleGeometry).1).1.scalarField.shapeTransition.progress =
      min ((morphToShape "Cube" 2 sampleGeometry).1.scalarField.shapeTransition.progress +
        1 / (2 : ℚ)) 1 :=
  ⟨morphCubeTickScenario.1 100 0 (fun _ _ => 0) (fun _ _ => 0) _ _ _ rfl rfl rfl,
    morphCubeTickScenario.2 (morphToShape "Cube" 2 sampleGeometry).1
      ⟨"Sphere", "Cube", 2⟩ 1 rfl rfl⟩

theorem progressInv_generate (g : Geometry) (h : ProgressInv g) :
    ProgressInv (generateScalarFieldGeometry g).1 := by
  unfold ProgressInv
  rw [generate_fst_scalarField, generate_fst_config]
  exact h

theorem progressInv_morph (t : String) (d : ℚ) (g : Geometry)
    (hd : 0 < d) (h : ProgressInv g) : ProgressInv (morphToShape t d g).1 := by
  cases hsdf : shapeSDFs t with
  | none =>
    have hrej : morphToShape t d g = (g, some GeoError.unknownShape) := by
      simp [morphToShape, hsdf]
    rw [hrej]
    exact h
  | some f =>
    rw [morphToShape_of_registered t d g f hsdf]
    refine ⟨le_refl 0, zero_le_one, fun itp hitp => ?_⟩
    have heq := Option.some.inj hitp
    subst heq
    exact ⟨zero_lt_one, hd⟩

theorem progressInv_update (dt : ℚ) (g : Geometry) (hdt : 0 ≤ dt)
    (h : ProgressInv g) : ProgressInv (update dt g).1 := by
  cases hevo : g.config.dynamicEvolution with
  | false =>
    rw [update_of_not_dynamicEvolution dt g hevo]
    exact h
  | true =>
    cases hitp : g.config.shapeInterpolation with
    | none =>
      have heff := update_effect_no_interp dt g hevo hitp
      refine ⟨?_, ?_, fun itp hit => ?_⟩
      · rw [heff.1]
        exact h.1
      · rw [heff.1]
        exact h.2.1
      · rw [heff.2.1] at hit
        cases hit
    | some itp0 =>
      have hpos : 0 < itp0.duration := (h.2.2 itp0 hitp).2
      have heff := update_effect_interp dt g itp0 hevo hitp
      have hstep : 0 ≤ dt / itp0.duration := div_nonneg hdt (le_of_lt hpos)
      have hnn : 0 ≤ min (g.scalarField.shapeTransition.progress + dt / itp0.duration) 1 :=
        le_min (add_nonneg h.1 hstep) zero_le_one
      refine ⟨?_, ?_, fun itp hit => ?_⟩
      · rw [heff.1]
        exact hnn
      · rw [heff.1]
        exact min_le_right _ _
      · rw [heff.2.1] at hit
        by_cases hc :
            (1:ℚ) ≤ min (g.scalarField.shapeTransition.progress + dt / itp0.duration) 1
        · rw [if_pos hc] at hit
          cases hit
        · rw [if_neg hc] at hit
          have heq := Option.some.inj hit
          subst heq
          refine ⟨?_, hpos⟩
          rw [heff.1]
          exact not_le.mp hc

theorem progressInv_runOps : ∀ (ops : List EngineOp) (g : Geometry),
    (∀ op ∈ ops, validOp op) → ProgressInv g → ProgressInv (runOps g ops) := by
  intro ops
  induction ops with
  | nil =>
    intro g _ h
    exact h
  | cons op rest ih =>
    intro g hops h
    have hop : validOp op := hops op (by simp)
    have h1 : ProgressInv (applyOp g op) := by
      cases op with
      | morphRequest t d => exact progressInv_morph t d g hop h
      | frameTick dt => exact progressInv_update dt g hop h
    exact ih (applyOp g op) (fun o ho => hops o (by simp [ho])) h1

theorem progressInv_mk (radius : ℝ) (polygonCount : ℕ) (cfg : CtorConfig)
    (randA randR : ℕ → ℕ → ℝ) :
    ProgressInv (mkGeometry radius polygonCount cfg randA randR).1 := by
  refine ⟨?_, ?_, fun itp hitp => ?_⟩
  · rw [mkGeometry_fst_scalarField]
  · rw [mkGeometry_fst_scalarField]
    norm_num
  · rw [mkGeometry_fst_config] at hitp
    cases hitp

/-- C8 (amended): starting from any constructed engine and applying any
sequence of morph requests with positive durations and updates with
nonnegative deltas, the transition progress stays in `[0,1]` and whenever an
interpolation is still pending its progress is below 1 (so no transition
dangles after completion).  The positivity restriction is forced by the
missing duration guard: see the counterexample. -/
theorem progressAlwaysInUnitInterval (radius : ℝ) (polygonCount : ℕ)
    (cfg : CtorConfig) (randA randR : ℕ → ℕ → ℝ) (ops : List EngineOp)
    (hops : ∀ op ∈ ops, validOp op) :
    0 ≤ (runOps (mkGeometry radius polygonCount cfg randA randR).1
        ops).scalarField.shapeTransition.progress ∧
    (runOps (mkGeometry radius polygonCount cfg randA randR).1
        ops).scalarField.shapeTransition.progress ≤ 1 ∧
    ∀ itp, (runOps (mkGeometry radius polygonCount cfg randA randR).1
        ops).config.shapeInterpolation = some itp →
      (runOps (mkGeometry radius polygonCount cfg randA randR).1
        ops).scalarField.shapeTransition.progress < 1 :=
  have h := progressInv_runOps ops (mkGeometry radius polygonCount cfg randA randR).1
    hops (progressInv_mk radius polygonCount cfg randA randR)
  ⟨h.1, h.2.1, fun itp hitp => (h.2.2 itp hitp).1⟩

/-- Witness for C8: the well-formed sequence morph("Cube", 2); update(1). -/
theorem progressAlwaysInUnitIntervalWitness :
    (∀ op ∈ ([EngineOp.morphRequest "Cube" 2, EngineOp.frameTick 1] :
        List EngineOp), validOp op) ∧
    0 ≤ (runOps sampleGeometry [EngineOp.morphRequest "Cube" 2,
        EngineOp.frameTick 1]).scalarField.shapeTransition.progress ∧
    (runOps sampleGeometry [EngineOp.morphRequest "Cube" 2,
        EngineOp.frameTick 1]).scalarField.shapeTransition.progress ≤ 1 ∧
    ∀ itp, (runOps sampleGeometry [EngineOp.morphRequest "Cube" 2,
        EngineOp.frameTick 1]).config.shapeInterpolation = some itp →
      (runOps sampleGeometry [EngineOp.morphRequest "Cube" 2,
        EngineOp.frameTick 1]).scalarField.shapeTransition.progress < 1 := by
  have hops : ∀ op ∈ ([EngineOp.morphRequest "Cube" 2, EngineOp.frameTick 1] :
      List EngineOp), validOp op := by
    intro op hop
    rcases List.mem_cons.mp hop with rfl | hop2
    · norm_num [validOp]
    · rcases List.mem_cons.mp hop2 with rfl | h3
      · norm_num [validOp]
      · simp at h3
  exact ⟨hops, progressAlwaysInUnitInterval 100 0 defaultCtorConfig
    (fun _ _ => 0) (fun _ _ => 0) _ hops⟩

/-- Counterexample for C8: the code accepts `morphToShape("Cube", -1)`, and
the next `update(1)` sets the transition progress to
`min(0 + 1/(-1), 1) = -1`, outside `[0,1]` — so the claim fails over
unrestricted operation sequences. -/
theorem negativeDurationProgressEscape :
    (runOps sampleGeometry [EngineOp.morphRequest "Cube" (-1),
        EngineOp.frameTick 1]).scalarField.shapeTransition.progress = -1 ∧
    ¬ (0 ≤ (runOps sampleGeometry [EngineOp.morphRequest "Cube" (-1),
        EngineOp.frameTick 1]).scalarField.shapeTransition.progress) := by
  have hg1evo : (morphToShape "Cube" (-1)
      sampleGeometry).1.config.dynamicEvolution = true := rfl
  have hg1int : (morphToShape "Cube" (-1) sampleGeometry).1.config.shapeInterpolation =
      some ⟨"Sphere", "Cube", -1⟩ := rfl
  have hg1prog : (morphToShape "Cube" (-1)
      sampleGeometry).1.scalarField.shapeTransition.progress = 0 := rfl
  have heff := update_effect_interp 1 (morphToShape "Cube" (-1) sampleGeometry).1
    ⟨"Sphere", "Cube", -1⟩ hg1evo hg1int
  have hval : (runOps sampleGeometry [EngineOp.morphRequest "Cube" (-1),
      EngineOp.frameTick 1]).scalarField.shapeTransition.progress = -1 := by
    show (update 1 (morphToShape "Cube" (-1)
      sampleGeometry).1).1.scalarField.shapeTransition.progress = -1
    rw [heff.1, hg1prog]
    norm_num
  refine ⟨hval, ?_⟩
  rw [hval]
  norm_num

end

end Nu3
